import Mathlib

/-!
Verification of the trouble BLE host stack composition layer
(`src/host/src/lib.rs`), together with spec-modelled components for the
modules (SAR, packet pool, channel manager, security manager) whose code
is referenced but not present under `src/`.
-/

namespace Trouble

/-- A single byte. -/
abbrev Byte := Fin 256

/-- HCI parameter error from the external `bt_hci` crate, kept abstract as a
wire value. -/
abbrev HciParamError := Nat

/-- HCI decode error from the external `bt_hci` crate, kept abstract. -/
abbrev FromHciBytesError := Nat

/-- Attribute protocol error code, kept abstract. -/
abbrev AttErrorCode := Nat

/-- Security manager failure reason, kept abstract. -/
abbrev SecurityReason := Nat

/-- Advertisement data error, kept abstract. -/
abbrev AdvertisementDataError := Nat

/-- The host error enum `Error` from `src/host/src/lib.rs` lines 194-236,
one constructor per Rust variant. -/
inductive Error where
  | Hci (e : HciParamError)
  | HciDecode (e : FromHciBytesError)
  | Att (e : AttErrorCode)
  | Security (e : SecurityReason)
  | InsufficientSpace
  | InvalidValue
  | Advertisement (e : AdvertisementDataError)
  | InvalidChannelId
  | NoChannelAvailable
  | NotFound
  | InvalidState
  | OutOfMemory
  | NotSupported
  | ChannelClosed
  | Timeout
  | Busy
  | NoPermits
  | Disconnected
  | ConnectionLimitReached
  | Other
  deriving DecidableEq, Repr

/-- The enum `BleHostError<E>` from `src/host/src/lib.rs` lines 184-189:
either a controller error of type `E` or a host `Error`. -/
inductive BleHostError (E : Type) where
  | Controller (e : E)
  | BleHost (e : Error)
  deriving DecidableEq, Repr

/-- The external `bt_hci::cmd::Error<E>`: an HCI parameter error or a
controller I/O error. -/
inductive CmdError (E : Type) where
  | Hci (p : HciParamError)
  | Io (p : E)
  deriving DecidableEq, Repr

/-- The codec error enum used by `src/host/src/lib.rs` lines 271-287; the
exhaustive matches there show exactly these two variants. -/
inductive CodecError where
  | InsufficientSpace
  | InvalidValue
  deriving DecidableEq, Repr

/-- The impl `From<bt_hci::cmd::Error<E>> for BleHostError<E>` at
`src/host/src/lib.rs` lines 256-263. -/
def BleHostError.fromCmdError {E : Type} (error : CmdError E) : BleHostError E :=
  match error with
  | .Hci p => .BleHost (.Hci p)
  | .Io p => .Controller p

/-- The impl `From<Error> for BleHostError<E>` at `src/host/src/lib.rs`
lines 238-242. -/
def BleHostError.fromError {E : Type} (value : Error) : BleHostError E :=
  .BleHost value

/-- The impl `From<codec::Error> for Error` at `src/host/src/lib.rs`
lines 271-278. -/
def Error.fromCodec (error : CodecError) : Error :=
  match error with
  | .InsufficientSpace => .InsufficientSpace
  | .InvalidValue => .InvalidValue

/-- The impl `From<codec::Error> for BleHostError<E>` at
`src/host/src/lib.rs` lines 280-287. -/
def BleHostError.fromCodec {E : Type} (error : CodecError) : BleHostError E :=
  match error with
  | .InsufficientSpace => .BleHost .InsufficientSpace
  | .InvalidValue => .BleHost .InvalidValue

/-- The `AddrKind` byte from the external `bt_hci` crate (a one-byte
discriminant wrapper). -/
abbrev AddrKind := Byte

/-- The external `BdAddr`: a 6-byte Bluetooth device address. -/
structure BdAddr where
  bytes : List Byte
  len_eq : bytes.length = 6
  deriving DecidableEq

/-- The struct `Address` from `src/host/src/lib.rs` lines 126-131. -/
structure Address where
  kind : AddrKind
  addr : BdAddr
  deriving DecidableEq

/-- The method `Address::to_bytes` from `src/host/src/lib.rs` lines 143-150:
byte 0 is the kind discriminant, bytes 1..7 are the reversed address bytes. -/
def Address.to_bytes (a : Address) : List Byte :=
  a.kind :: a.addr.bytes.reverse

/-! ## Segmentation and reassembly (SAR)

The SAR algorithms live in `l2cap/sar.rs`, which is not under `src/`;
only the `SarType`, `AssembledPacket` and `L2capHeader` names appear in
`src/host/src/lib.rs` (lines 22, 445-446, 461-462). The definitions below
are modelled from the spec, section 4.4. -/

/-- The `L2capHeader` carried by the initial fragment of a PDU: the logical
length of the PDU and the destination channel id (spec section 4.4:
an initial fragment carries a logical length header and channel id). -/
structure L2capHeader where
  length : Nat
  channel : Nat
  deriving DecidableEq, Repr

/-- One transport fragment: either an initial fragment carrying the header
and the first payload bytes, or a continuation fragment carrying only
payload (spec section 4.4). -/
inductive Fragment where
  | first (header : L2capHeader) (payload : List Byte)
  | cont (payload : List Byte)
  deriving DecidableEq, Repr

/-- Modelled from the spec: the per-connection reassembly slot of
`l2cap/sar.rs` (missing from `src/`): expected total length, destination
channel id, and the bytes accumulated so far (spec section 3,
"Reassembly state"). -/
structure SarState where
  expected : Nat
  channel : Nat
  received : List Byte
  deriving DecidableEq, Repr

/-- Protocol errors reported by reassembly (spec section 4.4): a
continuation with no reassembly in progress, an initial fragment while one
is in progress, accumulation past the expected length, or a declared
length beyond the configured maximum PDU size. -/
inductive SarError where
  | unexpectedStart
  | unexpectedContinuation
  | overflow
  | pduTooLarge
  deriving DecidableEq, Repr

/-- Modelled from the spec: outbound continuation fragments of
`l2cap/sar.rs` (missing from `src/`). The remaining payload is cut into
pieces of the transport payload size, each carried by a continuation
fragment (spec section 4.4, "continuation fragments carrying only
payload, until all bytes are emitted"). The transport payload size is
assumed positive; a zero size emits nothing. -/
def contFragments (payloadSize : Nat) (rest : List Byte) : List Fragment :=
  if rest.isEmpty then []
  else if payloadSize = 0 then []
  else Fragment.cont (rest.take payloadSize) ::
    contFragments payloadSize (rest.drop payloadSize)
termination_by rest.length
decreasing_by
  simp only [List.length_drop]
  rename_i h1 h2
  have hlen : 0 < rest.length := by
    cases rest with
    | nil => simp at h1
    | cons a l => simp
  omega

/-- Modelled from the spec: outbound segmentation of `l2cap/sar.rs`
(missing from `src/`). A PDU is split into an initial fragment carrying
the length header and channel id together with the first payload bytes,
followed by continuation fragments (spec section 4.4, "Outbound"). -/
def segment (channelId payloadSize : Nat) (pdu : List Byte) : List Fragment :=
  Fragment.first ⟨pdu.length, channelId⟩ (pdu.take payloadSize) ::
    contFragments payloadSize (pdu.drop payloadSize)

/-- Modelled from the spec: inbound handling of an initial fragment
(`l2cap/sar.rs`, missing from `src/`). It establishes the reassembly slot
from the header, rejecting a declared length beyond the configured
maximum before any bytes are accumulated, and delivers at once when the
first payload already reaches the declared length (spec section 4.4,
"Inbound"). Returns the new slot and an optional delivery of
(channel id, PDU bytes). -/
def sarOnFirst (maxPdu : Nat) (slot : Option SarState) (header : L2capHeader)
    (payload : List Byte) : Except SarError (Option SarState × Option (Nat × List Byte)) :=
  match slot with
  | some _ => .error .unexpectedStart
  | none =>
    if maxPdu < header.length then .error .pduTooLarge
    else if header.length < payload.length then .error .overflow
    else if payload.length = header.length then .ok (none, some (header.channel, payload))
    else .ok (some ⟨header.length, header.channel, payload⟩, none)

/-- Modelled from the spec: inbound handling of a continuation fragment
(`l2cap/sar.rs`, missing from `src/`). It appends to the slot, fails when
no reassembly is in progress or when the accumulation would exceed the
expected length, and delivers the completed PDU when the accumulated
length reaches the expected length (spec section 4.4, "Inbound"). -/
def sarOnContinuation (slot : Option SarState) (payload : List Byte) :
    Except SarError (Option SarState × Option (Nat × List Byte)) :=
  match slot with
  | none => .error .unexpectedContinuation
  | some s =>
    if s.expected < (s.received ++ payload).length then .error .overflow
    else if (s.received ++ payload).length = s.expected then
      .ok (none, some (s.channel, s.received ++ payload))
    else .ok (some ⟨s.expected, s.channel, s.received ++ payload⟩, none)

/-- Modelled from the spec: one inbound reassembly step, dispatching on the
fragment kind (spec section 4.4). -/
def sarStep (maxPdu : Nat) (slot : Option SarState) (frag : Fragment) :
    Except SarError (Option SarState × Option (Nat × List Byte)) :=
  match frag with
  | .first header payload => sarOnFirst maxPdu slot header payload
  | .cont payload => sarOnContinuation slot payload

/-- Modelled from the spec: running reassembly over a fragment sequence,
collecting the delivered (channel id, PDU) pairs in order (spec
section 4.4). -/
def sarRun (maxPdu : Nat) (slot : Option SarState) :
    List Fragment → Except SarError (Option SarState × List (Nat × List Byte))
  | [] => .ok (slot, [])
  | frag :: frags =>
    match sarStep maxPdu slot frag with
    | .error e => .error e
    | .ok (slot2, delivered) =>
      match sarRun maxPdu slot2 frags with
      | .error e => .error e
      | .ok (slot3, rest) => .ok (slot3, delivered.toList ++ rest)

/-! ## Connection and channel storage

`ConnectionStorage` and `ChannelStorage` live in `connection_manager.rs`
and `channel_manager.rs`, which are not under `src/`; `src/host/src/lib.rs`
only initializes arrays of them (lines 447-462). Their shape is modelled
from the spec, section 3. -/

/-- Connection slot state machine from spec section 4.2:
`Disconnected -> Connected -> Disconnecting -> Disconnected`. -/
inductive ConnState where
  | Disconnected
  | Connected
  | Disconnecting
  deriving DecidableEq, Repr

/-- Modelled from the spec: a connection slot of `connection_manager.rs`
(missing from `src/`): controller handle, state, role and peer address
(spec section 3, "Connection slot"). -/
structure ConnectionStorage where
  state : ConnState
  handle : Option Nat
  peer : Option Address
  deriving DecidableEq

/-- Modelled from the spec: the constant `ConnectionStorage::DISCONNECTED`
referenced at `src/host/src/lib.rs` line 448: a slot that is disconnected
before first use (spec section 3, "a slot is disconnected both before
first use and after teardown"). -/
def ConnectionStorage.DISCONNECTED : ConnectionStorage :=
  ⟨.Disconnected, none, none⟩

/-- Channel slot state, disconnected before first use (spec section 3,
"Channel slot"). -/
inductive ChanState where
  | Disconnected
  | Connected
  deriving DecidableEq, Repr

/-- Modelled from the spec: a channel slot of `channel_manager.rs` (missing
from `src/`): channel id, bound connection handle, state, MTUs and credit
counters (spec section 3, "Channel slot"). -/
structure ChannelStorage where
  state : ChanState
  cid : Option Nat
  conn : Option Nat
  localMtu : Nat
  remoteMtu : Nat
  localCredits : Nat
  remoteCredits : Nat
  deriving DecidableEq

/-- Modelled from the spec: the constant `ChannelStorage::DISCONNECTED`
referenced at `src/host/src/lib.rs` line 454. -/
def ChannelStorage.DISCONNECTED : ChannelStorage :=
  ⟨.Disconnected, none, none, 0, 0, 0, 0⟩

/-- Advertising handle state; `src/host/src/lib.rs` line 463 initializes
each entry to `AdvHandleState::None`. -/
inductive AdvHandleState where
  | None
  | Advertising
  deriving DecidableEq, Repr

/-- The per-connection SAR slot type `SarType` spelled out at
`src/host/src/lib.rs` line 462:
`Option<(ConnHandle, L2capHeader, AssembledPacket)>`. -/
abbrev SarType := Option (Nat × L2capHeader × List Byte)

/-- Build-time feature configuration of the crate; the fields mirror the
`cfg(feature = ...)` gates appearing in `src/host/src/lib.rs`. -/
structure BuildConfig where
  gatt : Bool
  security : Bool
  deriving DecidableEq, Repr

/-- A packet pool with its capacity and per-packet MTU, from
`packet_pool.rs` (missing from `src/`); only the capacity and MTU
parameters matter here, mirroring `PacketPool<MTU, N>` at
`src/host/src/lib.rs` lines 374-376. -/
structure PoolModel where
  mtu : Nat
  capacity : Nat
  deriving DecidableEq, Repr

/-- The struct `HostResources` from `src/host/src/lib.rs` lines 373-383
after initialization by `new` (lines 414-479): the rx pool, the tx pool
(present only when the `gatt` feature is enabled, line 375-376), the
connection, event, channel, channel-rx, SAR and advertising arrays. -/
structure StackModel where
  rxPool : PoolModel
  txPool : Option PoolModel
  connections : List ConnectionStorage
  events : Nat
  channels : List ChannelStorage
  channelsRx : Nat
  sar : List SarType
  advertiseHandles : List AdvHandleState
  address : Option Address

/-- The function `new` from `src/host/src/lib.rs` lines 414-479: every
connection slot is written `ConnectionStorage::DISCONNECTED` (line 448),
every channel slot `ChannelStorage::DISCONNECTED` (line 454), every SAR
slot `None` (line 461), every advertising handle `AdvHandleState::None`
(line 463); the rx pool always exists, the tx pool only under the `gatt`
feature (lines 435-441). -/
def Stack.new (cfg : BuildConfig) (CONNS CHANNELS L2CAP_MTU ADV_SETS : Nat)
    (rxPoolSize txPoolSize : Nat) : StackModel :=
  { rxPool := ⟨L2CAP_MTU, rxPoolSize⟩
    txPool := if cfg.gatt then some ⟨L2CAP_MTU, txPoolSize⟩ else none
    connections := List.replicate CONNS ConnectionStorage.DISCONNECTED
    events := CONNS
    channels := List.replicate CHANNELS ChannelStorage.DISCONNECTED
    channelsRx := CHANNELS
    sar := List.replicate CONNS (none : SarType)
    advertiseHandles := List.replicate ADV_SETS AdvHandleState.None
    address := none }

/-- The method `Stack::set_random_address` from `src/host/src/lib.rs`
lines 501-506: it replaces the host address and touches nothing else. -/
def Stack.set_random_address (s : StackModel) (a : Address) : StackModel :=
  { s with address := some a }

/-! ## Bonding store

The security manager lives in `security_manager.rs`, which is not under
`src/`; `src/host/src/lib.rs` defines its capacity `BI_COUNT` (line 28)
and forwards `add_bond_information` / `remove_bond_information` /
`get_bond_information` to it (lines 570-587). -/

/-- The constant `BI_COUNT` from `src/host/src/lib.rs` line 28: the number
of bonding information entries stored. -/
def BI_COUNT : Nat := 10

/-- Modelled from the spec: a long-term-key record of
`security_manager.rs` (missing from `src/`): peer address and long-term
key (spec section 2, "Bonding/Security Store"). -/
structure BondInformation where
  address : BdAddr
  ltk : Nat
  deriving DecidableEq

/-- Modelled from the spec: `Stack::add_bond_information`
(`security_manager.rs` missing from `src/`): adds a record to the
capacity-bounded store, failing with a typed error instead of growing it
past `BI_COUNT` entries (spec sections 6 and 7: capacity errors are
surfaced as typed failures, tables never grow). -/
def add_bond_information (store : List BondInformation) (bi : BondInformation) :
    Except Error (List BondInformation) :=
  if store.length < BI_COUNT then .ok (store ++ [bi])
  else .error .OutOfMemory

/-- Modelled from the spec: `Stack::get_bond_information` returns the
stored records as a `heapless::Vec<BondInformation, BI_COUNT>`
(`src/host/src/lib.rs` line 585), a vector whose type-level capacity is
`BI_COUNT`; the capacity bound is carried as the subtype invariant. -/
def get_bond_information (store : List BondInformation)
    (hstore : store.length ≤ BI_COUNT) :
    { l : List BondInformation // l.length ≤ BI_COUNT } :=
  ⟨store, hstore⟩

/-! ## Channel lookup -/

/-- Modelled from the spec: the channel-table lookup `bind_check` of
`channel_manager.rs` (missing from `src/`): a lookup for an id with no
occupied slot, or whose bound connection no longer matches, fails with
`InvalidChannelId` (spec section 4.3). -/
def bind_check (channels : List ChannelStorage) (channelId connHandle : Nat) :
    Except Error Unit :=
  match channels.find? (fun c => c.cid = some channelId) with
  | none => .error .InvalidChannelId
  | some c =>
    if c.conn = some connHandle then .ok ()
    else .error .InvalidChannelId

/-- The capacities of a stack fixed at construction: number of connection
slots, number of channel slots, per-packet MTU and advertising-set
count. -/
def StackModel.capacities (s : StackModel) : Nat × Nat × Nat × Nat :=
  (s.connections.length, s.channels.length, s.rxPool.mtu, s.advertiseHandles.length)

/-! ## Theorems -/

/-- C2: converting `bt_hci::cmd::Error<E>` into `BleHostError<E>` sends a
controller I/O error to `Controller` with the value unchanged, wraps an
HCI parameter error as `BleHost(Error::Hci(_))`, and the two result
shapes are never equal. -/
theorem cmd_error_conversion_preserves_controller_error (E : Type) :
    (∀ e : E, BleHostError.fromCmdError (CmdError.Io e) = BleHostError.Controller e) ∧
    (∀ p : HciParamError,
      BleHostError.fromCmdError (E := E) (CmdError.Hci p) = BleHostError.BleHost (Error.Hci p)) ∧
    (∀ (e : E) (x : Error), BleHostError.Controller e ≠ BleHostError.BleHost x) := by
  refine ⟨fun e => rfl, fun p => rfl, fun e x h => ?_⟩
  exact BleHostError.noConfusion h

/-- Witness for C2 at the concrete controller error type `Nat` and value 5. -/
theorem cmd_error_conversion_preserves_controller_error_check :
    BleHostError.fromCmdError (CmdError.Io (5 : Nat)) = BleHostError.Controller 5 ∧
    BleHostError.fromCmdError (E := Nat) (CmdError.Hci 7) = BleHostError.BleHost (Error.Hci 7) ∧
    BleHostError.Controller (5 : Nat) ≠ BleHostError.BleHost Error.Other :=
  ⟨(cmd_error_conversion_preserves_controller_error Nat).1 5,
   (cmd_error_conversion_preserves_controller_error Nat).2.1 7,
   (cmd_error_conversion_preserves_controller_error Nat).2.2 5 Error.Other⟩

/-- C10: the two conversions of a codec error agree: converting into
`BleHostError<E>` equals wrapping the conversion into `Error` in
`BleHost`, and both paths map `InsufficientSpace` to `InsufficientSpace`
and `InvalidValue` to `InvalidValue`. -/
theorem codec_error_conversions_agree (E : Type) :
    (∀ e : CodecError,
      BleHostError.fromCodec (E := E) e = BleHostError.BleHost (Error.fromCodec e)) ∧
    Error.fromCodec CodecError.InsufficientSpace = Error.InsufficientSpace ∧
    Error.fromCodec CodecError.InvalidValue = Error.InvalidValue ∧
    BleHostError.fromCodec (E := E) CodecError.InsufficientSpace
      = BleHostError.BleHost Error.InsufficientSpace ∧
    BleHostError.fromCodec (E := E) CodecError.InvalidValue
      = BleHostError.BleHost Error.InvalidValue := by
  refine ⟨fun e => ?_, rfl, rfl, rfl, rfl⟩
  cases e <;> rfl

/-- C6: a channel lookup for an id with no occupied slot, or whose bound
connection no longer matches, fails with `InvalidChannelId`, and
`InvalidChannelId` and `ChannelClosed` are distinct error values. -/
theorem bind_check_invalid_channel_id :
    Error.InvalidChannelId ≠ Error.ChannelClosed ∧
    (∀ (channels : List ChannelStorage) (channelId connHandle : Nat),
      channels.find? (fun c => c.cid = some channelId) = none →
      bind_check channels channelId connHandle = .error Error.InvalidChannelId) ∧
    (∀ (channels : List ChannelStorage) (channelId connHandle : Nat) (c : ChannelStorage),
      channels.find? (fun c => c.cid = some channelId) = some c →
      c.conn ≠ some connHandle →
      bind_check channels channelId connHandle = .error Error.InvalidChannelId) := by
  refine ⟨by decide, fun channels channelId connHandle h => ?_,
    fun channels channelId connHandle c h hc => ?_⟩
  · simp [bind_check, h]
  · simp [bind_check, h, hc]

/-- Witness for C6: the empty channel table and a table with one channel
bound to a different connection both yield `InvalidChannelId`. -/
theorem bind_check_invalid_channel_id_check :
    bind_check [] 1 2 = .error Error.InvalidChannelId ∧
    bind_check [{ ChannelStorage.DISCONNECTED with cid := some 1, conn := some 9 }] 1 2
      = .error Error.InvalidChannelId :=
  ⟨bind_check_invalid_channel_id.2.1 [] 1 2 rfl,
   bind_check_invalid_channel_id.2.2
     [{ ChannelStorage.DISCONNECTED with cid := some 1, conn := some 9 }] 1 2
     { ChannelStorage.DISCONNECTED with cid := some 1, conn := some 9 }
     (by decide) (by decide)⟩

/-- C9: `Address::to_bytes` yields a 7-byte array whose first byte is the
address kind and whose tail is the six address bytes reversed, and the
encoding is injective. -/
theorem to_bytes_layout_and_injective :
    (∀ a : Address,
      (a.to_bytes).length = 7 ∧
      (a.to_bytes).head? = some a.kind ∧
      (a.to_bytes).tail = a.addr.bytes.reverse) ∧
    Function.Injective Address.to_bytes := by
  constructor
  · intro a
    refine ⟨?_, rfl, rfl⟩
    simp [Address.to_bytes, a.addr.len_eq]
  · intro a b h
    obtain ⟨ka, ⟨la, pa⟩⟩ := a
    obtain ⟨kb, ⟨lb, pb⟩⟩ := b
    simp only [Address.to_bytes, List.cons.injEq] at h
    obtain ⟨hk, hr⟩ := h
    have hl : la = lb := by
      have := congrArg List.reverse hr
      simpa using this
    subst hl
    subst hk
    rfl

/-- Witness for C9 at the all-zero random address: the length is 7 and the
injectivity hypothesis is discharged by a reflexive byte equality. -/
theorem to_bytes_layout_and_injective_check :
    (Address.to_bytes ⟨2, ⟨[0, 0, 0, 0, 0, 0], by decide⟩⟩).length = 7 ∧
    (⟨2, ⟨[0, 0, 0, 0, 0, 0], by decide⟩⟩ : Address)
      = ⟨2, ⟨[0, 0, 0, 0, 0, 0], by decide⟩⟩ :=
  ⟨(to_bytes_layout_and_injective.1 ⟨2, ⟨[0, 0, 0, 0, 0, 0], by decide⟩⟩).1,
   to_bytes_layout_and_injective.2 rfl⟩

/-- C3: after `new`, every connection slot and every channel slot is in the
disconnected state and every SAR reassembly slot is `None`. -/
theorem stack_new_all_slots_disconnected (cfg : BuildConfig)
    (CONNS CHANNELS L2CAP_MTU ADV_SETS rxPoolSize txPoolSize : Nat) :
    (∀ c ∈ (Stack.new cfg CONNS CHANNELS L2CAP_MTU ADV_SETS rxPoolSize txPoolSize).connections,
      c = ConnectionStorage.DISCONNECTED ∧ c.state = ConnState.Disconnected) ∧
    (∀ ch ∈ (Stack.new cfg CONNS CHANNELS L2CAP_MTU ADV_SETS rxPoolSize txPoolSize).channels,
      ch = ChannelStorage.DISCONNECTED ∧ ch.state = ChanState.Disconnected) ∧
    (∀ slot ∈ (Stack.new cfg CONNS CHANNELS L2CAP_MTU ADV_SETS rxPoolSize txPoolSize).sar,
      slot = none) := by
  refine ⟨fun c hc => ?_, fun ch hch => ?_, fun slot hslot => ?_⟩
  · have := List.eq_of_mem_replicate hc
    exact ⟨this, by rw [this]; rfl⟩
  · have := List.eq_of_mem_replicate hch
    exact ⟨this, by rw [this]; rfl⟩
  · exact List.eq_of_mem_replicate hslot

/-- Witness for C3 at a stack with one connection and one channel slot. -/
theorem stack_new_all_slots_disconnected_check :
    ConnectionStorage.DISCONNECTED.state = ConnState.Disconnected ∧
    ChannelStorage.DISCONNECTED.state = ChanState.Disconnected :=
  ⟨((stack_new_all_slots_disconnected ⟨true, true⟩ 1 1 23 1 8 8).1
      ConnectionStorage.DISCONNECTED (by simp [Stack.new])).2,
   ((stack_new_all_slots_disconnected ⟨true, true⟩ 1 1 23 1 8 8).2.1
      ChannelStorage.DISCONNECTED (by simp [Stack.new])).2⟩

/-- C4: the connection, channel, MTU and advertising-set capacities are
fixed at construction to the `HostResources` const-generic parameters,
and the state-mutating stack operation `set_random_address` leaves every
capacity unchanged. -/
theorem stack_capacities_fixed (cfg : BuildConfig)
    (CONNS CHANNELS L2CAP_MTU ADV_SETS rxPoolSize txPoolSize : Nat) :
    (Stack.new cfg CONNS CHANNELS L2CAP_MTU ADV_SETS rxPoolSize txPoolSize).capacities
      = (CONNS, CHANNELS, L2CAP_MTU, ADV_SETS) ∧
    (∀ (s : StackModel) (a : Address),
      (Stack.set_random_address s a).capacities = s.capacities) := by
  constructor
  · simp [Stack.new, StackModel.capacities]
  · intro s a
    rfl

/-- C5: the SAR array created by `new` has exactly `CONNS` entries, one per
connection slot. -/
theorem sar_array_one_slot_per_connection (cfg : BuildConfig)
    (CONNS CHANNELS L2CAP_MTU ADV_SETS rxPoolSize txPoolSize : Nat) :
    (Stack.new cfg CONNS CHANNELS L2CAP_MTU ADV_SETS rxPoolSize txPoolSize).sar.length
      = CONNS ∧
    (Stack.new cfg CONNS CHANNELS L2CAP_MTU ADV_SETS rxPoolSize txPoolSize).sar.length
      = (Stack.new cfg CONNS CHANNELS L2CAP_MTU ADV_SETS rxPoolSize txPoolSize).connections.length := by
  simp [Stack.new]

/-- Counterexample for C7: in a build without the `gatt` feature the
`HostResources` struct has no tx pool at all, so two pools do not exist
in every build of the stack. -/
theorem tx_pool_absent_without_gatt :
    (Stack.new ⟨false, false⟩ 1 1 23 1 8 8).txPool = none := rfl

/-- C7 (amended): the rx pool exists in every build with its own
independently configured capacity; the tx pool exists exactly in builds
with the `gatt` feature enabled, with its own independently configured
capacity. -/
theorem rx_tx_pools_independent (cfg : BuildConfig)
    (CONNS CHANNELS L2CAP_MTU ADV_SETS rxPoolSize txPoolSize : Nat) :
    (Stack.new cfg CONNS CHANNELS L2CAP_MTU ADV_SETS rxPoolSize txPoolSize).rxPool
      = ⟨L2CAP_MTU, rxPoolSize⟩ ∧
    (cfg.gatt = true →
      (Stack.new cfg CONNS CHANNELS L2CAP_MTU ADV_SETS rxPoolSize txPoolSize).txPool
        = some ⟨L2CAP_MTU, txPoolSize⟩) ∧
    (cfg.gatt = false →
      (Stack.new cfg CONNS CHANNELS L2CAP_MTU ADV_SETS rxPoolSize txPoolSize).txPool
        = none) := by
  refine ⟨rfl, fun h => ?_, fun h => ?_⟩
  · simp [Stack.new, h]
  · simp [Stack.new, h]

/-- Witness for the amended C7 at a gatt-enabled and a gatt-disabled
build. -/
theorem rx_tx_pools_independent_check :
    (Stack.new ⟨true, false⟩ 2 2 23 1 8 4).txPool = some ⟨23, 4⟩ ∧
    (Stack.new ⟨false, false⟩ 2 2 23 1 8 4).txPool = none :=
  ⟨(rx_tx_pools_independent ⟨true, false⟩ 2 2 23 1 8 4).2.1 rfl,
   (rx_tx_pools_independent ⟨false, false⟩ 2 2 23 1 8 4).2.2 rfl⟩

/-- C8: the bonding store is capacity-bounded to `BI_COUNT = 10` entries:
`get_bond_information` returns a vector whose capacity bound is 10, and
`add_bond_information` on a full store fails with a typed error instead
of growing the store. -/
theorem bond_store_capacity_bounded (store : List BondInformation)
    (bi : BondInformation) (hfull : store.length = BI_COUNT) :
    BI_COUNT = 10 ∧
    add_bond_information store bi = .error Error.OutOfMemory ∧
    (∀ (s : List BondInformation) (hs : s.length ≤ BI_COUNT),
      (get_bond_information s hs).val.length ≤ 10) := by
  refine ⟨rfl, ?_, fun s hs => hs⟩
  simp [add_bond_information, hfull]

/-- Witness for C8 at a store holding ten identical records. -/
theorem bond_store_capacity_bounded_check :
    (List.replicate 10 (⟨⟨List.replicate 6 0, by decide⟩, 0⟩ : BondInformation)).length
      = BI_COUNT ∧
    add_bond_information
      (List.replicate 10 (⟨⟨List.replicate 6 0, by decide⟩, 0⟩ : BondInformation))
      ⟨⟨List.replicate 6 0, by decide⟩, 1⟩ = .error Error.OutOfMemory :=
  ⟨by decide,
   (bond_store_capacity_bounded
      (List.replicate 10 (⟨⟨List.replicate 6 0, by decide⟩, 0⟩ : BondInformation))
      ⟨⟨List.replicate 6 0, by decide⟩, 1⟩ (by decide)).2.1⟩

/-- Unfolding lemma for `sarRun` on a cons cell whose step and tail both
succeed. -/
theorem sarRun_cons (maxPdu : Nat) (slot slot2 slot3 : Option SarState)
    (f : Fragment) (fs : List Fragment) (d : Option (Nat × List Byte))
    (ds : List (Nat × List Byte))
    (h1 : sarStep maxPdu slot f = .ok (slot2, d))
    (h2 : sarRun maxPdu slot2 fs = .ok (slot3, ds)) :
    sarRun maxPdu slot (f :: fs) = .ok (slot3, d.toList ++ ds) := by
  simp [sarRun, h1, h2]

/-- Reassembly of the continuation fragments of one PDU: starting from a
slot that expects `acc.length + rest.length` bytes and has accumulated
`acc`, consuming the continuation fragments of `rest` delivers exactly
`acc ++ rest` on the slot's channel and clears the slot. -/
theorem sarRun_contFragments (maxPdu P : Nat) (hP : 0 < P) :
    ∀ (n : Nat) (rest acc : List Byte) (L cid : Nat), rest.length ≤ n → rest ≠ [] →
      acc.length + rest.length = L →
      sarRun maxPdu (some ⟨L, cid, acc⟩) (contFragments P rest)
        = .ok (none, [(cid, acc ++ rest)]) := by
  intro n
  induction n with
  | zero =>
    intro rest acc L cid hle hne hlen
    exact absurd (List.eq_nil_of_length_eq_zero (Nat.le_zero.mp hle)) hne
  | succ n ih =>
    intro rest acc L cid hle hne hlen
    rw [contFragments]
    have hre : rest.isEmpty = false := by
      cases rest with
      | nil => exact absurd rfl hne
      | cons a l => rfl
    rw [hre]
    simp only [Bool.false_eq_true, if_false, Nat.pos_iff_ne_zero.mp hP, ite_false]
    have hrl : 0 < rest.length := by
      cases rest with
      | nil => exact absurd rfl hne
      | cons a l => simp
    by_cases hcase : rest.length ≤ P
    · have htake : rest.take P = rest := List.take_of_length_le hcase
      have hdrop : rest.drop P = [] := List.drop_eq_nil_of_le hcase
      rw [htake, hdrop, contFragments]
      have hacc : (acc ++ rest).length = L := by
        simp [List.length_append, hlen]
      have h1 : sarStep maxPdu (some ⟨L, cid, acc⟩) (Fragment.cont rest)
          = .ok (none, some (cid, acc ++ rest)) := by
        simp only [sarStep, sarOnContinuation]
        rw [if_neg (by omega), if_pos hacc]
      have hmain := sarRun_cons maxPdu (some ⟨L, cid, acc⟩) none none
        (Fragment.cont rest) [] (some (cid, acc ++ rest)) [] h1 rfl
      simpa using hmain
    · push_neg at hcase
      have hlt : (acc ++ rest.take P).length < L := by
        simp only [List.length_append, List.length_take]
        omega
      have hdroplen : (rest.drop P).length = rest.length - P := List.length_drop P rest
      have h1 : sarStep maxPdu (some ⟨L, cid, acc⟩) (Fragment.cont (rest.take P))
          = .ok (some ⟨L, cid, acc ++ rest.take P⟩, none) := by
        simp only [sarStep, sarOnContinuation]
        rw [if_neg (by omega), if_neg (by omega)]
      have hstep : sarRun maxPdu (some ⟨L, cid, acc ++ rest.take P⟩)
          (contFragments P (rest.drop P))
          = .ok (none, [(cid, (acc ++ rest.take P) ++ rest.drop P)]) := by
        apply ih
        · omega
        · intro hnil
          rw [hnil] at hdroplen
          simp at hdroplen
          omega
        · simp only [List.length_append, List.length_take]
          omega
      have hmain := sarRun_cons maxPdu (some ⟨L, cid, acc⟩)
        (some ⟨L, cid, acc ++ rest.take P⟩) none
        (Fragment.cont (rest.take P)) (contFragments P (rest.drop P)) none
        [(cid, (acc ++ rest.take P) ++ rest.drop P)] h1 hstep
      rw [hmain]
      simp [List.append_assoc, List.take_append_drop]

/-- C1: for every PDU of length at least 1 byte and at most the configured
maximum PDU size that exceeds one transport payload, outbound
segmentation followed by inbound reassembly delivers exactly the original
byte sequence on the original channel and leaves the reassembly slot
empty. -/
theorem segment_reassemble_roundtrip (cid P maxPdu : Nat) (pdu : List Byte)
    (h1 : 1 ≤ pdu.length) (h2 : pdu.length ≤ maxPdu)
    (hP : 0 < P) (hexceeds : P < pdu.length) :
    sarRun maxPdu none (segment cid P pdu) = .ok (none, [(cid, pdu)]) := by
  rw [segment]
  have htakelen : (pdu.take P).length = P := by
    simp only [List.length_take]
    omega
  have hdroplen : (pdu.drop P).length = pdu.length - P := List.length_drop P pdu
  have hrest : sarRun maxPdu (some ⟨pdu.length, cid, pdu.take P⟩)
      (contFragments P (pdu.drop P))
      = .ok (none, [(cid, pdu.take P ++ pdu.drop P)]) := by
    apply sarRun_contFragments maxPdu P hP (pdu.drop P).length
    · exact Nat.le_refl _
    · intro hnil
      rw [hnil] at hdroplen
      simp at hdroplen
      omega
    · rw [htakelen, hdroplen]
      omega
  have h1 : sarStep maxPdu none (Fragment.first ⟨pdu.length, cid⟩ (pdu.take P))
      = .ok (some ⟨pdu.length, cid, pdu.take P⟩, none) := by
    simp only [sarStep, sarOnFirst]
    rw [if_neg (by omega), if_neg (by rw [htakelen]; omega),
      if_neg (by rw [htakelen]; omega)]
  have hmain := sarRun_cons maxPdu none (some ⟨pdu.length, cid, pdu.take P⟩) none
    (Fragment.first ⟨pdu.length, cid⟩ (pdu.take P)) (contFragments P (pdu.drop P)) none
    [(cid, pdu.take P ++ pdu.drop P)] h1 hrest
  rw [hmain]
  simp [List.take_append_drop]

/-- Witness for C1: the 3-byte PDU `[0, 1, 2]` on channel 4, transport
payload size 2, maximum PDU size 5, round-trips exactly. -/
theorem segment_reassemble_roundtrip_check :
    sarRun 5 none (segment 4 2 [0, 1, 2]) = .ok (none, [(4, [0, 1, 2])]) :=
  segment_reassemble_roundtrip 4 2 5 [0, 1, 2]
    (by decide) (by decide) (by decide) (by decide)

end Trouble
